import Mathlib

/-!
Shallow embedding of the PhotoFrameSync Go client and theorems about it.

The repository has two variants of one program:
a mediaItems search client (main.go) and a Photos Picker session client.
Network, filesystem and clock effects are made explicit parameters:
the server behaviour is a list of per-request outcomes consumed in order,
the filesystem is an association list from path to byte content, and
per-call fault injections model the error returns of the Go standard
library calls (os.Stat, http Get, os.Create, io.Copy).
-/

deriving instance DecidableEq for Except

namespace PhotoFrameSync

/-- MediaItem of the search variant: id, baseUrl and filename, as decoded from JSON. -/
structure MediaItem where
  id : String
  baseUrl : String
  filename : String
  deriving DecidableEq

/-- MediaItemsResponse: one decoded page of a mediaItems search. -/
structure MediaItemsResponse where
  mediaItems : List MediaItem
  nextPageToken : String
  deriving DecidableEq

/-- A JSON value as stored in the request payload map: a string, a number, or
an unanalysed subtree such as the filters object (tagged by a name). -/
inductive JVal where
  | str : String → JVal
  | num : Nat → JVal
  | node : String → JVal
  deriving DecidableEq

/-- A Go map with string keys, embedded as an association list. -/
abbrev JMap := List (String × JVal)

/-- Go map assignment m[k] = v: overwrite the binding in place, or append it. -/
def mapSet : JMap → String → JVal → JMap
  | [], k, v => [(k, v)]
  | (q, w) :: rest, k, v =>
      if q = k then (k, v) :: rest else (q, w) :: mapSet rest k v

/-- Go map lookup m[k]. -/
def mapGet : JMap → String → Option JVal
  | [], _ => none
  | (q, w) :: rest, k => if q = k then some w else mapGet rest k

/-- Outcome of one search page request, as seen by the client:
the POST fails, the status is carried back, the body fails to decode,
or a page decodes successfully. -/
inductive PageOutcome where
  | reqError : PageOutcome
  | badStatus : Nat → PageOutcome
  | decodeError : PageOutcome
  | ok : MediaItemsResponse → PageOutcome
  deriving DecidableEq

/-- Result of the search pagination loop: the payload map as the caller sees
it afterwards (the Go code mutates the map the caller passed), the payload
snapshots sent to the server in order, and the returned items or error. -/
structure SearchResult where
  payload : JMap
  requests : List JMap
  result : Except String (List MediaItem)
  deriving DecidableEq

/-- One iteration of payload preparation in SearchMediaItems: set pageSize to
100 in the shared map, and set pageToken when the previous page supplied one. -/
def nextPayload (payload : JMap) (pageToken : String) : JMap :=
  let p1 := mapSet payload ("pageSize") (JVal.num 100)
  if pageToken = "" then p1 else mapSet p1 ("pageToken") (JVal.str pageToken)

/-- The body of SearchMediaItems: one iteration per server outcome.  Each
iteration sets pageSize to 100 in the shared payload map, sets pageToken when
a previous page supplied one, records the request, and either fails, returns the
accumulated items when nextPageToken is empty, or continues with the new token.
An empty outcome list models a server that never answers the pending request. -/
def searchLoop (payload : JMap) (pageToken : String) (acc : List MediaItem) :
    List PageOutcome → SearchResult
  | [] => ⟨payload, [], .error ("no response from server")⟩
  | o :: rest =>
    let p2 := nextPayload payload pageToken
    match o with
    | .reqError => ⟨p2, [p2], .error ("error sending request")⟩
    | .badStatus c => ⟨p2, [p2], .error ("non-OK HTTP status " ++ toString c)⟩
    | .decodeError => ⟨p2, [p2], .error ("error decoding response")⟩
    | .ok resp =>
      if resp.nextPageToken = "" then ⟨p2, [p2], .ok (acc ++ resp.mediaItems)⟩
      else
        let r := searchLoop p2 resp.nextPageToken (acc ++ resp.mediaItems) rest
        ⟨r.payload, p2 :: r.requests, r.result⟩

/-- SearchMediaItems (search variant): paginate the mediaItems search endpoint
starting with the caller supplied filter payload and an empty page token.
Every error return site in the Go code returns nil items with the error,
embedded here as the error case of Except. -/
def SearchMediaItems (filterPayload : JMap) (server : List PageOutcome) : SearchResult :=
  searchLoop filterPayload "" [] server

/-- MediaFile of the picker variant: the (baseUrl, filename) pair a download needs.
The search variant feeds the same two fields of its MediaItem to the downloader. -/
structure MediaFile where
  baseUrl : String
  filename : String
  deriving DecidableEq

/-- MediaType of a picked item. -/
inductive MediaType where
  | photo : MediaType
  | video : MediaType
  | typeUnspecified : MediaType
  deriving DecidableEq

/-- PickedMediaItem of the picker variant. -/
structure PickedMediaItem where
  id : String
  createTime : String
  type : MediaType
  mediaFile : MediaFile
  deriving DecidableEq

/-- MediaItemsList: one decoded page of picker media items. -/
structure MediaItemsList where
  mediaItems : List PickedMediaItem
  nextPageToken : String
  deriving DecidableEq

/-- Outcome of one picker page request. -/
inductive PickerOutcome where
  | reqError : PickerOutcome
  | badStatus : Nat → PickerOutcome
  | decodeError : PickerOutcome
  | ok : MediaItemsList → PickerOutcome
  deriving DecidableEq

/-- The query parameters a picker page request carries, as built by
getMediaItemsFromFirstPage (no pageToken) and getMediaItemsFromPageURL. -/
structure PickerRequest where
  sessionId : String
  pageSize : Nat
  pageToken : Option String
  deriving DecidableEq

/-- getMediaItemsFromFirstPage: request sessionId with pageSize 100 and no
pageToken; map the transport outcome to the decoded page or an error. -/
def getMediaItemsFromFirstPage (sessionID : String) (o : PickerOutcome) :
    PickerRequest × Except String MediaItemsList :=
  (⟨sessionID, 100, none⟩,
    match o with
    | .reqError => .error ("failed to get media items")
    | .badStatus c => .error ("failed to fetch media items: status " ++ toString c)
    | .decodeError => .error ("failed to decode media items response")
    | .ok page => .ok page)

/-- getMediaItemsFromPageURL: like the first page request but carrying the
continuation pageToken. -/
def getMediaItemsFromPageURL (sessionID : String) (pageToken : String) (o : PickerOutcome) :
    PickerRequest × Except String MediaItemsList :=
  (⟨sessionID, 100, some pageToken⟩,
    match o with
    | .reqError => .error ("failed to get media items from page URL")
    | .badStatus c => .error ("failed to fetch media items: status " ++ toString c)
    | .decodeError => .error ("failed to decode media items response")
    | .ok page => .ok page)

/-- The while-loop of fetchSelectedMediaItems: while the token is nonempty,
fetch the page for the current token, append its items, move to its token. -/
def fetchPages (sessionID : String) (pageToken : String) (acc : List PickedMediaItem) :
    List PickerOutcome → List PickerRequest × Except String (List PickedMediaItem)
  | [] => ([], .error ("no response from server"))
  | o :: rest =>
    let step := getMediaItemsFromPageURL sessionID pageToken o
    match step.2 with
    | .error e => ([step.1], .error ("failed to fetch next page media items: " ++ e))
    | .ok page =>
      if page.nextPageToken = "" then ([step.1], .ok (acc ++ page.mediaItems))
      else
        let r := fetchPages sessionID page.nextPageToken (acc ++ page.mediaItems) rest
        (step.1 :: r.1, r.2)

/-- fetchSelectedMediaItems (picker variant): fetch the first page, then follow
nonempty continuation tokens; every error return site in the Go code returns an
empty item struct with the error, embedded as the error case of Except.
Also returns the trace of requests issued. -/
def fetchSelectedMediaItems (sessionID : String) :
    List PickerOutcome → List PickerRequest × Except String (List PickedMediaItem)
  | [] => ([], .error ("no response from server"))
  | o :: rest =>
    let step := getMediaItemsFromFirstPage sessionID o
    match step.2 with
    | .error e => ([step.1], .error ("failed to fetch first page media items: " ++ e))
    | .ok firstPage =>
      if firstPage.nextPageToken = "" then ([step.1], .ok firstPage.mediaItems)
      else
        let r := fetchPages sessionID firstPage.nextPageToken firstPage.mediaItems rest
        (step.1 :: r.1, r.2)

/-! Downloader.  The local filesystem is an association list from path to byte
content; the environment of one DownloadMediaItem call injects the possible
error returns of the library calls it makes. -/

/-- An HTTP response as the downloader sees it: a status code and body bytes. -/
structure HttpResponse where
  statusCode : Nat
  body : List Nat
  deriving DecidableEq

/-- Fault injections for one DownloadMediaItem call.
statFault: os.Stat returns an error that is not IsNotExist.
getResp: none when the http Get itself errors, otherwise the response.
createFault: os.Create returns an error.
copyFail: some n when io.Copy errors after writing n bytes of the body. -/
structure DownloadEnv where
  statFault : Bool
  getResp : Option HttpResponse
  createFault : Bool
  copyFail : Option Nat
  deriving DecidableEq

/-- The local filesystem: paths with their byte contents. -/
abbrev FS := List (String × List Nat)

/-- Whether a path exists on the filesystem (os.Stat returns nil exactly then). -/
def fsHas : FS → String → Bool
  | [], _ => false
  | (q, _) :: rest, p => if q = p then true else fsHas rest p

/-- Create or truncate then write a file (os.Create followed by writes). -/
def fsSet : FS → String → List Nat → FS
  | [], p, c => [(p, c)]
  | (q, d) :: rest, p, c =>
      if q = p then (p, c) :: rest else (q, d) :: fsSet rest p c

/-- filepath.Join folder filename for a simple folder and a simple name. -/
def filepathJoin (folder name : String) : String :=
  folder ++ "/" ++ name

/-- Result of one DownloadMediaItem call: the filesystem afterwards, the URLs
the call issued a GET for, and success or the error. -/
structure DownloadStep where
  fs : FS
  requests : List String
  result : Except String Unit
  deriving DecidableEq

/-- DownloadMediaItem: append the query suffix to the base URL, skip when the
target path already exists (os.Stat returned nil), propagate an unexpected stat
error, otherwise GET the URL and stream the body to a newly created file,
propagating any error of Get, the status check, Create or Copy.  A Copy error
leaves the prefix of the body written so far in the created file. -/
def DownloadMediaItem (item : MediaFile) (folder : String) (env : DownloadEnv) (fs : FS) :
    DownloadStep :=
  let downloadUrl := item.baseUrl ++ "=d"
  let filePath := filepathJoin folder item.filename
  if env.statFault then ⟨fs, [], .error ("stat error")⟩
  else if fsHas fs filePath then ⟨fs, [], .ok ()⟩
  else
    match env.getResp with
    | none => ⟨fs, [downloadUrl], .error ("get error")⟩
    | some resp =>
      if resp.statusCode ≠ 200 then
        ⟨fs, [downloadUrl],
          .error ("failed to download file " ++ item.filename ++ ", HTTP status "
            ++ toString resp.statusCode)⟩
      else if env.createFault then ⟨fs, [downloadUrl], .error ("create error")⟩
      else
        match env.copyFail with
        | some n => ⟨fsSet fs filePath (resp.body.take n), [downloadUrl], .error ("copy error")⟩
        | none => ⟨fsSet fs filePath resp.body, [downloadUrl], .ok ()⟩

/-- The download loop of main (search variant) and downloadItems (picker
variant): call DownloadMediaItem on the (baseUrl, filename) pair of each item
in order, printing an error line for a failed item and continuing with the
rest.  Returns the final filesystem and the printed error lines. -/
def downloadItems (folder : String) (fs : FS) :
    List (MediaFile × DownloadEnv) → FS × List String
  | [] => (fs, [])
  | (item, env) :: rest =>
    let step := DownloadMediaItem item folder env fs
    let tail := downloadItems folder step.fs rest
    match step.result with
    | .error e => (tail.1, ("Error downloading " ++ item.filename ++ ": " ++ e) :: tail.2)
    | .ok _ => tail

/-! Credential store (getClient). -/

/-- An OAuth2 token: its serialized credential and its expiry instant. -/
structure Token where
  accessToken : String
  expiry : Nat
  deriving DecidableEq

/-- Environment of one getClient call.
fileToken: what tokenFromFile returns (none when the file cannot be read or
its JSON cannot be decoded).  webToken n: the token the n-th run of the web
authorization flow yields.  now: the current time. -/
structure AuthEnv where
  fileToken : Option Token
  webToken : Nat → Token
  now : Nat

/-- getClient: read the token file, run the web flow (and save) when the read
fails, then run the web flow (and save) again when the token in hand has
expired.  Returns the token used for the client and the number of web
authorization flows run, which equals the number of token file writes. -/
def getClient (env : AuthEnv) : Token × Nat :=
  match env.fileToken with
  | some t =>
      if t.expiry < env.now then (env.webToken 0, 1) else (t, 0)
  | none =>
      let t := env.webToken 0
      if t.expiry < env.now then (env.webToken 1, 2) else (t, 1)

/-! Selection negotiator (picker variant): session polling. -/

/-- PollingConfig of a picker session, as the server sends it. -/
structure PollingConfig where
  pollInterval : String
  timeoutIn : String
  deriving DecidableEq

/-- PickingSession as decoded from the server. -/
structure PickingSession where
  id : String
  mediaItemsSet : Bool
  pickerUri : String
  pollingConfig : PollingConfig
  deriving DecidableEq

/-- Outcome of one session poll request. -/
inductive SessionFetch where
  | reqError : SessionFetch
  | badStatus : Nat → SessionFetch
  | decodeError : SessionFetch
  | ok : PickingSession → SessionFetch
  deriving DecidableEq

/-- pollForCompleteSession: GET the session and report its MediaItemsSet flag,
propagating transport, status and decode errors. -/
def pollForCompleteSession (o : SessionFetch) : Except String Bool :=
  match o with
  | .reqError => .error ("failed to check session")
  | .badStatus c => .error ("failed to check session: status " ++ toString c)
  | .decodeError => .error ("failed to decode session response")
  | .ok s => .ok s.mediaItemsSet

/-- strings.Trim of quote characters on both ends, at the character level. -/
def trimQuotes (cs : List Char) : List Char :=
  ((cs.dropWhile (fun c => c = Char.ofNat 34)).reverse.dropWhile
    (fun c => c = Char.ofNat 34)).reverse

/-- A nonempty decimal digit string read as a number (the integer part of a
Go duration literal). -/
def digitsToNat : List Char → Option Nat
  | [] => none
  | cs =>
    if cs.all (fun c => 48 ≤ c.toNat && c.toNat ≤ 57) then
      some (cs.foldl (fun n c => n * 10 + (c.toNat - 48)) 0)
    else none

/-- parseDuration: trim quotes then parse with time.ParseDuration.  The Go
standard library parser is modelled for the whole-number forms the code
comment names (like 30s or 1m, plus ms); the result is in milliseconds. -/
def parseDuration (d : String) : Option Nat :=
  match (trimQuotes d.data).reverse with
  | 's' :: 'm' :: rest => digitsToNat rest.reverse
  | 's' :: rest => (digitsToNat rest.reverse).map (fun n => n * 1000)
  | 'm' :: rest => (digitsToNat rest.reverse).map (fun n => n * 60000)
  | _ => none

/-- Number of ticker ticks that occur strictly before the timeout fires, for a
ticker of period interval and a timer of duration timeout started together:
the ticks at interval, 2 * interval, ... that are strictly below timeout. -/
def ticksBefore (interval timeout : Nat) : Nat :=
  if interval = 0 then 0 else (timeout - 1) / interval

/-- The select loop of waitForSessionComplete, with the remaining tick budget
before the timeout fires first.  polls k is the transport outcome of the k-th
session poll; server answers the pagination requests made after completion. -/
def waitLoop (sessionID : String) (polls : Nat → SessionFetch) (server : List PickerOutcome) :
    Nat → Nat → Except String (List PickedMediaItem)
  | 0, _ => .error ("session timed out")
  | Nat.succ budget, k =>
    match pollForCompleteSession (polls k) with
    | .error e => .error ("polling failed: " ++ e)
    | .ok true =>
        match (fetchSelectedMediaItems sessionID server).2 with
        | .error e => .error ("failed to fetch selected media items: " ++ e)
        | .ok items => .ok items
    | .ok false => waitLoop sessionID polls server budget (k + 1)

/-- waitForSessionComplete: parse the server specified poll interval and
timeout, then poll once per interval until a poll reports the session complete
(then paginate the selected items) or the timeout fires first. -/
def waitForSessionComplete (session : PickingSession) (polls : Nat → SessionFetch)
    (server : List PickerOutcome) : Except String (List PickedMediaItem) :=
  match parseDuration session.pollingConfig.pollInterval with
  | none => .error ("invalid polling interval")
  | some interval =>
    match parseDuration session.pollingConfig.timeoutIn with
    | none => .error ("invalid timeout")
    | some timeout => waitLoop session.id polls server (ticksBefore interval timeout) 0

/-! Concrete fixtures used by witness theorems. -/

/-- A first search page carrying one item and a continuation token. -/
def pageOne : MediaItemsResponse := ⟨[⟨"1", "uA", "a.jpg"⟩], "tok1"⟩

/-- A last search page carrying one item and an empty token. -/
def pageTwo : MediaItemsResponse := ⟨[⟨"2", "uB", "b.jpg"⟩], ""⟩

/-- A picked item fixture. -/
def pickedA : PickedMediaItem := ⟨"p1", "t1", MediaType.photo, ⟨"uA", "a.jpg"⟩⟩

/-- A second picked item fixture. -/
def pickedB : PickedMediaItem := ⟨"p2", "t2", MediaType.video, ⟨"uB", "b.mp4"⟩⟩

/-- A first picker page with a continuation token. -/
def plistOne : MediaItemsList := ⟨[pickedA], "ptok"⟩

/-- A last picker page with an empty token. -/
def plistTwo : MediaItemsList := ⟨[pickedB], ""⟩

/-- An incomplete picker session with a 2 second poll interval and a 5 second timeout. -/
def sessionW : PickingSession := ⟨"sid", false, "uri", ⟨"2s", "5s"⟩⟩

/-- The same session reported complete. -/
def sessionDoneW : PickingSession := ⟨"sid", true, "uri", ⟨"2s", "5s"⟩⟩

/-- A poll trace whose second poll reports the session complete. -/
def pollsW : Nat → SessionFetch :=
  fun k => SessionFetch.ok (if k = 1 then sessionDoneW else sessionW)

/-! Basic lemmas about the map and filesystem operations. -/

theorem mapGet_mapSet_self (m : JMap) (k : String) (v : JVal) :
    mapGet (mapSet m k v) k = some v := by
  induction m with
  | nil => simp [mapSet, mapGet]
  | cons e rest ih =>
    obtain ⟨q, w⟩ := e
    by_cases h : q = k
    · simp [mapSet, mapGet, h]
    · simp [mapSet, mapGet, h, ih]

theorem mapGet_mapSet_ne (m : JMap) (k j : String) (v : JVal) (h : j ≠ k) :
    mapGet (mapSet m k v) j = mapGet m j := by
  induction m with
  | nil => simp [mapSet, mapGet, Ne.symm h]
  | cons e rest ih =>
    obtain ⟨q, w⟩ := e
    by_cases hq : q = k
    · subst hq
      simp [mapSet, mapGet, Ne.symm h]
    · by_cases hj : q = j
      · subst hj
        simp [mapSet, mapGet, hq]
      · simp [mapSet, mapGet, hq, hj, ih]

theorem fsHas_fsSet_self (fs : FS) (p : String) (c : List Nat) :
    fsHas (fsSet fs p c) p = true := by
  induction fs with
  | nil => simp [fsSet, fsHas]
  | cons e rest ih =>
    obtain ⟨q, d⟩ := e
    by_cases h : q = p
    · simp [fsSet, fsHas, h]
    · simp [fsSet, fsHas, h, ih]

theorem nextPayload_pageSize (payload : JMap) (tok : String) :
    mapGet (nextPayload payload tok) ("pageSize") = some (JVal.num 100) := by
  unfold nextPayload
  by_cases h : tok = ""
  · simp [h, mapGet_mapSet_self]
  · simp only [if_neg h]
    rw [mapGet_mapSet_ne _ _ _ _ (by decide), mapGet_mapSet_self]

theorem nextPayload_pageToken_of_ne (payload : JMap) (tok : String) (h : tok ≠ "") :
    mapGet (nextPayload payload tok) ("pageToken") = some (JVal.str tok) := by
  unfold nextPayload
  simp only [if_neg h]
  rw [mapGet_mapSet_self]

theorem nextPayload_pageToken_of_empty (payload : JMap) :
    mapGet (nextPayload payload "") ("pageToken") = mapGet payload ("pageToken") := by
  unfold nextPayload
  simp only [if_pos rfl]
  exact mapGet_mapSet_ne _ _ _ _ (by decide)

theorem nextPayload_pageToken (payload : JMap) (tok : String) :
    mapGet (nextPayload payload tok) ("pageToken") =
      if tok = "" then mapGet payload ("pageToken") else some (JVal.str tok) := by
  by_cases h : tok = ""
  · subst h
    simp [nextPayload_pageToken_of_empty]
  · simp [h, nextPayload_pageToken_of_ne _ _ h]

/-! Claim C1. -/

/-- C1: when the target file already exists (and os.Stat behaves normally),
DownloadMediaItem returns success with no request issued and the filesystem
unchanged; otherwise it issues one GET to the base URL with the query suffix
appended, and when the request, status check, create and copy all succeed it
writes the response bytes to the joined target path. -/
theorem DownloadMediaItem_skip_or_stream (item : MediaFile) (folder : String)
    (env : DownloadEnv) (fs : FS) (hstat : env.statFault = false) :
    (fsHas fs (filepathJoin folder item.filename) = true →
      DownloadMediaItem item folder env fs = ⟨fs, [], .ok ()⟩)
    ∧ (fsHas fs (filepathJoin folder item.filename) = false →
      (DownloadMediaItem item folder env fs).requests = [item.baseUrl ++ "=d"]
      ∧ ∀ resp : HttpResponse, env.getResp = some resp → resp.statusCode = 200 →
          env.createFault = false → env.copyFail = none →
          DownloadMediaItem item folder env fs =
            ⟨fsSet fs (filepathJoin folder item.filename) resp.body,
              [item.baseUrl ++ "=d"], .ok ()⟩) := by
  constructor
  · intro h
    simp [DownloadMediaItem, hstat, h]
  · intro h
    constructor
    · cases hg : env.getResp with
      | none => simp [DownloadMediaItem, hstat, h, hg]
      | some resp =>
        by_cases hs : resp.statusCode = 200
        · by_cases hc : env.createFault
          · simp [DownloadMediaItem, hstat, h, hg, hs, hc]
          · cases hcf : env.copyFail <;>
              simp [DownloadMediaItem, hstat, h, hg, hs, hc, hcf]
        · simp [DownloadMediaItem, hstat, h, hg, hs]
    · intro resp hg hs hc hcf
      simp [DownloadMediaItem, hstat, h, hg, hs, hc, hcf]

/-- Witness for C1 at a concrete item, folder, environment and filesystem. -/
theorem DownloadMediaItem_skip_or_stream_witness :
    DownloadMediaItem ⟨"u", "a.jpg"⟩ "f" ⟨false, some ⟨200, [7]⟩, false, none⟩ [] =
      ⟨[("f/a.jpg", [7])], ["u=d"], .ok ()⟩ := by
  have h := DownloadMediaItem_skip_or_stream ⟨"u", "a.jpg"⟩ "f"
    ⟨false, some ⟨200, [7]⟩, false, none⟩ [] rfl
  exact (h.2 rfl).2 ⟨200, [7]⟩ rfl rfl rfl rfl

/-! Claim C6. -/

/-- C6: DownloadMediaItem is idempotent: after a call that returned success,
a second call on the resulting filesystem (with os.Stat behaving normally)
finds the file, issues no request, writes nothing and returns success, leaving
the state of the first call unchanged. -/
theorem DownloadMediaItem_idempotent (item : MediaFile) (folder : String)
    (env env2 : DownloadEnv) (fs : FS) (hstat2 : env2.statFault = false)
    (h1 : (DownloadMediaItem item folder env fs).result = .ok ()) :
    DownloadMediaItem item folder env2 (DownloadMediaItem item folder env fs).fs =
      ⟨(DownloadMediaItem item folder env fs).fs, [], .ok ()⟩ := by
  have hhas : fsHas (DownloadMediaItem item folder env fs).fs
      (filepathJoin folder item.filename) = true := by
    by_cases hsf : env.statFault
    · simp [DownloadMediaItem, hsf] at h1
    · by_cases hh : fsHas fs (filepathJoin folder item.filename) = true
      · simp [DownloadMediaItem, hsf, hh]
      · cases hg : env.getResp with
        | none => simp [DownloadMediaItem, hsf, hh, hg] at h1
        | some resp =>
          by_cases hs : resp.statusCode = 200
          · by_cases hc : env.createFault
            · simp [DownloadMediaItem, hsf, hh, hg, hs, hc] at h1
            · cases hcf : env.copyFail with
              | some n => simp [DownloadMediaItem, hsf, hh, hg, hs, hc, hcf] at h1
              | none =>
                  simp [DownloadMediaItem, hsf, hh, hg, hs, hc, hcf, fsHas_fsSet_self]
          · simp [DownloadMediaItem, hsf, hh, hg, hs] at h1
  generalize (DownloadMediaItem item folder env fs).fs = fs1 at hhas ⊢
  simp [DownloadMediaItem, hstat2, hhas]

/-- Witness for C6 at a concrete item, environments and filesystem. -/
theorem DownloadMediaItem_idempotent_witness :
    DownloadMediaItem ⟨"u", "a.jpg"⟩ "f" ⟨false, none, false, none⟩
        (DownloadMediaItem ⟨"u", "a.jpg"⟩ "f" ⟨false, some ⟨200, [7]⟩, false, none⟩ []).fs =
      ⟨(DownloadMediaItem ⟨"u", "a.jpg"⟩ "f" ⟨false, some ⟨200, [7]⟩, false, none⟩ []).fs,
        [], .ok ()⟩ :=
  DownloadMediaItem_idempotent ⟨"u", "a.jpg"⟩ "f"
    ⟨false, some ⟨200, [7]⟩, false, none⟩ ⟨false, none, false, none⟩ [] rfl rfl

/-! Claim C9. -/

/-- C9: a DownloadMediaItem failure of the stat check, of the GET itself or of
the status check returns an error with the filesystem unchanged, and an error
return that did change the filesystem can only come from a copy failure, which
leaves the prefix of the body written before the failure at the target path. -/
theorem DownloadMediaItem_error_frame (item : MediaFile) (folder : String)
    (env : DownloadEnv) (fs : FS) :
    ((env.statFault = true ∨
        (fsHas fs (filepathJoin folder item.filename) = false ∧
          (env.getResp = none ∨
            ∃ resp, env.getResp = some resp ∧ resp.statusCode ≠ 200))) →
      (DownloadMediaItem item folder env fs).fs = fs ∧
        ∃ e, (DownloadMediaItem item folder env fs).result = .error e)
    ∧ (∀ e, (DownloadMediaItem item folder env fs).result = .error e →
        (DownloadMediaItem item folder env fs).fs ≠ fs →
        ∃ n resp, env.copyFail = some n ∧ env.getResp = some resp ∧
          resp.statusCode = 200 ∧
          (DownloadMediaItem item folder env fs).fs =
            fsSet fs (filepathJoin folder item.filename) (resp.body.take n)) := by
  constructor
  · rintro (hsf | ⟨hh, hcase⟩)
    · simp [DownloadMediaItem, hsf]
    · by_cases hsf : env.statFault
      · simp [DownloadMediaItem, hsf]
      · rcases hcase with hg | ⟨resp, hg, hs⟩
        · simp [DownloadMediaItem, hsf, hh, hg]
        · simp [DownloadMediaItem, hsf, hh, hg, hs]
  · intro e he hne
    by_cases hsf : env.statFault
    · exact absurd (by simp [DownloadMediaItem, hsf]) hne
    · by_cases hh : fsHas fs (filepathJoin folder item.filename) = true
      · exact absurd (by simp [DownloadMediaItem, hsf, hh]) hne
      · cases hg : env.getResp with
        | none => exact absurd (by simp [DownloadMediaItem, hsf, hh, hg]) hne
        | some resp =>
          by_cases hs : resp.statusCode = 200
          · by_cases hc : env.createFault
            · exact absurd (by simp [DownloadMediaItem, hsf, hh, hg, hs, hc]) hne
            · cases hcf : env.copyFail with
              | some n =>
                  refine ⟨n, resp, rfl, rfl, hs, ?_⟩
                  simp [DownloadMediaItem, hsf, hh, hg, hs, hc, hcf]
              | none =>
                  simp [DownloadMediaItem, hsf, hh, hg, hs, hc, hcf] at he
          · exact absurd (by simp [DownloadMediaItem, hsf, hh, hg, hs]) hne

/-- Witness for C9: a failing GET at a concrete input leaves the filesystem
unchanged and yields an error. -/
theorem DownloadMediaItem_error_frame_witness :
    (DownloadMediaItem ⟨"u", "a.jpg"⟩ "f" ⟨false, none, false, none⟩ []).fs = ([] : FS) ∧
      ∃ e, (DownloadMediaItem ⟨"u", "a.jpg"⟩ "f"
        ⟨false, none, false, none⟩ []).result = .error e :=
  (DownloadMediaItem_error_frame ⟨"u", "a.jpg"⟩ "f" ⟨false, none, false, none⟩ []).1
    (Or.inr ⟨rfl, Or.inl rfl⟩)

/-! Claim C4.  The download loops of both variants print the error of a failed
item and continue with the next item; they do not stop. -/

/-- C4 counterexample: with two items where the first download fails with a GET
error and the second succeeds, the loop still downloads the second item: its
file is present afterwards, so the program did not stop at the first error. -/
theorem downloadItems_continue_after_error_cex :
    (DownloadMediaItem ⟨"u1", "a.jpg"⟩ "f" ⟨false, none, false, none⟩ []).result =
        .error ("get error")
    ∧ (downloadItems "f" []
        [(⟨"u1", "a.jpg"⟩, ⟨false, none, false, none⟩),
          (⟨"u2", "b.jpg"⟩, ⟨false, some ⟨200, [7]⟩, false, none⟩)]).1 =
        [("f/b.jpg", [7])]
    ∧ fsHas (downloadItems "f" []
        [(⟨"u1", "a.jpg"⟩, ⟨false, none, false, none⟩),
          (⟨"u2", "b.jpg"⟩, ⟨false, some ⟨200, [7]⟩, false, none⟩)]).1 ("f/b.jpg") =
        true := ⟨rfl, rfl, rfl⟩

/-- C4 as amended: after a failed item the loop reports the error line and
continues unconditionally, so running the loop on a concatenation equals
running it on the first part and then on the second from the reached state,
whether or not the first part contained failures. -/
theorem downloadItems_processes_all (folder : String) (fs : FS)
    (l1 l2 : List (MediaFile × DownloadEnv)) :
    downloadItems folder fs (l1 ++ l2) =
      ((downloadItems folder (downloadItems folder fs l1).1 l2).1,
        (downloadItems folder fs l1).2 ++
          (downloadItems folder (downloadItems folder fs l1).1 l2).2) := by
  induction l1 generalizing fs with
  | nil => simp [downloadItems]
  | cons p rest ih =>
    obtain ⟨item, env⟩ := p
    cases hr : (DownloadMediaItem item folder env fs).result with
    | error e => simp [downloadItems, hr, ih]
    | ok u => simp [downloadItems, hr, ih]

/-! Claim C5. -/

/-- C5: getClient runs the web authorization flow, saving the token each time,
exactly when the token file read or decode fails or the stored token expired
before the current time; otherwise it returns the stored token unchanged with
zero web flows and zero token file writes. -/
theorem getClient_web_flow_iff (env : AuthEnv) :
    ((getClient env).2 ≠ 0 ↔
      (env.fileToken = none ∨ ∃ t, env.fileToken = some t ∧ t.expiry < env.now))
    ∧ (∀ t, env.fileToken = some t → ¬ t.expiry < env.now → getClient env = (t, 0)) := by
  obtain ⟨ft, wt, now⟩ := env
  cases ft with
  | none =>
    refine ⟨⟨fun _ => Or.inl rfl, fun _ => ?_⟩, fun t ht => by cases ht⟩
    simp only [getClient]
    split <;> simp
  | some t0 =>
    by_cases hx : t0.expiry < now
    · refine ⟨⟨fun _ => Or.inr ⟨t0, rfl, hx⟩, fun _ => ?_⟩, fun t ht hnx => ?_⟩
      · simp [getClient, hx]
      · injection ht with ht
        subst ht
        exact absurd hx hnx
    · refine ⟨⟨fun h => ?_, fun h => ?_⟩, fun t ht hnx => ?_⟩
      · exact absurd (by simp [getClient, hx]) h
      · rcases h with h | ⟨t, ht, hlt⟩
        · cases h
        · injection ht with ht
          subst ht
          exact absurd hlt hx
      · injection ht with ht
        subst ht
        simp [getClient, hx]

/-- Witness for C5: a stored unexpired token is used unchanged with no web
flow and no token file write. -/
theorem getClient_web_flow_iff_witness :
    getClient ⟨some ⟨"a", 5⟩, fun _ => ⟨"w", 9⟩, 3⟩ = (⟨"a", 5⟩, 0) :=
  (getClient_web_flow_iff ⟨some ⟨"a", 5⟩, fun _ => ⟨"w", 9⟩, 3⟩).2 ⟨"a", 5⟩ rfl (by decide)

/-! Pagination lemmas: behaviour of the loops on a well formed server trace,
given as pages front ++ [last] where every front page carries a nonempty
continuation token and the last page carries the empty token. -/

theorem searchLoop_good (front : List MediaItemsResponse) :
    ∀ (last : MediaItemsResponse) (payload : JMap) (tok : String) (acc : List MediaItem),
      (∀ q ∈ front, q.nextPageToken ≠ "") → last.nextPageToken = "" →
      (searchLoop payload tok acc
          (front.map PageOutcome.ok ++ [PageOutcome.ok last])).result =
          .ok (acc ++ ((front.map MediaItemsResponse.mediaItems).flatten ++ last.mediaItems))
      ∧ (searchLoop payload tok acc
            (front.map PageOutcome.ok ++ [PageOutcome.ok last])).requests.map
            (fun r => mapGet r ("pageToken")) =
          (if tok = "" then mapGet payload ("pageToken") else some (JVal.str tok))
            :: front.map (fun q => some (JVal.str q.nextPageToken)) := by
  induction front with
  | nil =>
    intro last payload tok acc _ hlast
    constructor
    · simp [searchLoop, hlast]
    · by_cases h : tok = ""
      · subst h
        simp [searchLoop, hlast, nextPayload_pageToken_of_empty]
      · simp [searchLoop, hlast, h, nextPayload_pageToken_of_ne _ _ h]
  | cons p front ih =>
    intro last payload tok acc hfront hlast
    have hp : p.nextPageToken ≠ "" := hfront p (by simp)
    have hfront2 : ∀ q ∈ front, q.nextPageToken ≠ "" := fun q hq => hfront q (by simp [hq])
    obtain ⟨ih1, ih2⟩ := ih last (nextPayload payload tok) p.nextPageToken
      (acc ++ p.mediaItems) hfront2 hlast
    constructor
    · simp only [List.map_cons, List.cons_append]
      simp [searchLoop, hp, ih1, List.append_assoc]
    · simp only [List.map_cons, List.cons_append]
      simp [searchLoop, hp, ih2, nextPayload_pageToken]

theorem fetchPages_good (front : List MediaItemsList) :
    ∀ (last : MediaItemsList) (sid tok : String) (acc : List PickedMediaItem),
      (∀ q ∈ front, q.nextPageToken ≠ "") → last.nextPageToken = "" →
      (fetchPages sid tok acc
          (front.map PickerOutcome.ok ++ [PickerOutcome.ok last])).2 =
          .ok (acc ++ ((front.map MediaItemsList.mediaItems).flatten ++ last.mediaItems))
      ∧ (fetchPages sid tok acc
            (front.map PickerOutcome.ok ++ [PickerOutcome.ok last])).1.map
            PickerRequest.pageToken =
          some tok :: front.map (fun q => some q.nextPageToken) := by
  induction front with
  | nil =>
    intro last sid tok acc _ hlast
    constructor
    · simp [fetchPages, getMediaItemsFromPageURL, hlast]
    · simp [fetchPages, getMediaItemsFromPageURL, hlast]
  | cons p front ih =>
    intro last sid tok acc hfront hlast
    have hp : p.nextPageToken ≠ "" := hfront p (by simp)
    have hfront2 : ∀ q ∈ front, q.nextPageToken ≠ "" := fun q hq => hfront q (by simp [hq])
    obtain ⟨ih1, ih2⟩ := ih last sid p.nextPageToken (acc ++ p.mediaItems) hfront2 hlast
    constructor
    · simp only [List.map_cons, List.cons_append]
      simp [fetchPages, getMediaItemsFromPageURL, hp, ih1, List.append_assoc]
    · simp only [List.map_cons, List.cons_append]
      simp [fetchPages, getMediaItemsFromPageURL, hp, ih2]

theorem fetchSelectedMediaItems_good (front : List MediaItemsList) (last : MediaItemsList)
    (sid : String)
    (hfront : ∀ q ∈ front, q.nextPageToken ≠ "") (hlast : last.nextPageToken = "") :
    (fetchSelectedMediaItems sid
        (front.map PickerOutcome.ok ++ [PickerOutcome.ok last])).2 =
        .ok ((front.map MediaItemsList.mediaItems).flatten ++ last.mediaItems)
    ∧ (fetchSelectedMediaItems sid
          (front.map PickerOutcome.ok ++ [PickerOutcome.ok last])).1.map
          PickerRequest.pageToken =
        none :: front.map (fun q => some q.nextPageToken) := by
  cases front with
  | nil =>
    constructor
    · simp [fetchSelectedMediaItems, getMediaItemsFromFirstPage, hlast]
    · simp [fetchSelectedMediaItems, getMediaItemsFromFirstPage, hlast]
  | cons p front =>
    have hp : p.nextPageToken ≠ "" := hfront p (by simp)
    have hfront2 : ∀ q ∈ front, q.nextPageToken ≠ "" := fun q hq => hfront q (by simp [hq])
    obtain ⟨h1, h2⟩ := fetchPages_good front last sid p.nextPageToken p.mediaItems hfront2 hlast
    constructor
    · simp only [List.map_cons, List.cons_append]
      simp [fetchSelectedMediaItems, getMediaItemsFromFirstPage, hp, h1]
    · simp only [List.map_cons, List.cons_append]
      simp [fetchSelectedMediaItems, getMediaItemsFromFirstPage, hp, h2]

/-! Claim C2. -/

/-- C2: on a server trace of pages whose front pages carry nonempty tokens and
whose final page carries the empty token, both pagination loops return the
concatenation of the pages' media items in order; the first request carries no
page token (given the caller's payload has none), each later request carries
the token of the previous response, and the loops issue exactly one request
per page, stopping at the page whose token is empty. -/
theorem pagination_concat_and_tokens
    (fp : JMap) (front : List MediaItemsResponse) (last : MediaItemsResponse)
    (sid : String) (frontA : List MediaItemsList) (lastA : MediaItemsList)
    (hfp : mapGet fp ("pageToken") = none)
    (hfront : ∀ q ∈ front, q.nextPageToken ≠ "") (hlast : last.nextPageToken = "")
    (hfrontA : ∀ q ∈ frontA, q.nextPageToken ≠ "") (hlastA : lastA.nextPageToken = "") :
    (SearchMediaItems fp (front.map PageOutcome.ok ++ [PageOutcome.ok last])).result =
        .ok ((front.map MediaItemsResponse.mediaItems).flatten ++ last.mediaItems)
    ∧ (SearchMediaItems fp
          (front.map PageOutcome.ok ++ [PageOutcome.ok last])).requests.map
          (fun r => mapGet r ("pageToken")) =
        none :: front.map (fun q => some (JVal.str q.nextPageToken))
    ∧ (fetchSelectedMediaItems sid
          (frontA.map PickerOutcome.ok ++ [PickerOutcome.ok lastA])).2 =
        .ok ((frontA.map MediaItemsList.mediaItems).flatten ++ lastA.mediaItems)
    ∧ (fetchSelectedMediaItems sid
          (frontA.map PickerOutcome.ok ++ [PickerOutcome.ok lastA])).1.map
          PickerRequest.pageToken =
        none :: frontA.map (fun q => some q.nextPageToken) := by
  obtain ⟨h1, h2⟩ := searchLoop_good front last fp "" [] hfront hlast
  obtain ⟨h3, h4⟩ := fetchSelectedMediaItems_good frontA lastA sid hfrontA hlastA
  refine ⟨?_, ?_, h3, h4⟩
  · simpa [SearchMediaItems] using h1
  · simp only [SearchMediaItems]
    rw [h2, if_pos rfl, hfp]

/-- Witness for C2 on a concrete two page trace for each variant. -/
theorem pagination_concat_and_tokens_witness :
    (SearchMediaItems []
        ([pageOne].map PageOutcome.ok ++ [PageOutcome.ok pageTwo])).result =
        .ok (([pageOne].map MediaItemsResponse.mediaItems).flatten ++ pageTwo.mediaItems)
    ∧ (SearchMediaItems []
          ([pageOne].map PageOutcome.ok ++ [PageOutcome.ok pageTwo])).requests.map
          (fun r => mapGet r ("pageToken")) =
        none :: [pageOne].map (fun q => some (JVal.str q.nextPageToken))
    ∧ (fetchSelectedMediaItems "sid"
          ([plistOne].map PickerOutcome.ok ++ [PickerOutcome.ok plistTwo])).2 =
        .ok (([plistOne].map MediaItemsList.mediaItems).flatten ++ plistTwo.mediaItems)
    ∧ (fetchSelectedMediaItems "sid"
          ([plistOne].map PickerOutcome.ok ++ [PickerOutcome.ok plistTwo])).1.map
          PickerRequest.pageToken =
        none :: [plistOne].map (fun q => some q.nextPageToken) :=
  pagination_concat_and_tokens [] [pageOne] pageTwo "sid" [plistOne] plistTwo rfl
    (by decide) rfl (by decide) rfl

/-! Claim C7: error propagation of the pagination loops. -/

theorem searchLoop_error (goods : List MediaItemsResponse) :
    ∀ (bad : PageOutcome) (rest : List PageOutcome) (payload : JMap) (tok : String)
      (acc : List MediaItem),
      (∀ q ∈ goods, q.nextPageToken ≠ "") → (∀ resp, bad ≠ PageOutcome.ok resp) →
      ∃ e, (searchLoop payload tok acc
        (goods.map PageOutcome.ok ++ bad :: rest)).result = .error e := by
  induction goods with
  | nil =>
    intro bad rest payload tok acc _ hbad
    cases bad with
    | ok resp => exact absurd rfl (hbad resp)
    | reqError => exact ⟨("error sending request"), by simp [searchLoop]⟩
    | badStatus c => exact ⟨("non-OK HTTP status " ++ toString c), by simp [searchLoop]⟩
    | decodeError => exact ⟨("error decoding response"), by simp [searchLoop]⟩
  | cons p goods ih =>
    intro bad rest payload tok acc hg hbad
    have hp : p.nextPageToken ≠ "" := hg p (by simp)
    obtain ⟨e, he⟩ := ih bad rest (nextPayload payload tok) p.nextPageToken
      (acc ++ p.mediaItems) (fun q hq => hg q (by simp [hq])) hbad
    refine ⟨e, ?_⟩
    simp only [List.map_cons, List.cons_append]
    simp [searchLoop, hp, he]

theorem fetchPages_error (goods : List MediaItemsList) :
    ∀ (bad : PickerOutcome) (rest : List PickerOutcome) (sid tok : String)
      (acc : List PickedMediaItem),
      (∀ q ∈ goods, q.nextPageToken ≠ "") → (∀ page, bad ≠ PickerOutcome.ok page) →
      ∃ e, (fetchPages sid tok acc
        (goods.map PickerOutcome.ok ++ bad :: rest)).2 = .error e := by
  induction goods with
  | nil =>
    intro bad rest sid tok acc _ hbad
    cases bad with
    | ok page => exact absurd rfl (hbad page)
    | reqError =>
        exact ⟨("failed to fetch next page media items: "
          ++ "failed to get media items from page URL"),
          by simp [fetchPages, getMediaItemsFromPageURL]⟩
    | badStatus c =>
        exact ⟨("failed to fetch next page media items: "
          ++ ("failed to fetch media items: status " ++ toString c)),
          by simp [fetchPages, getMediaItemsFromPageURL]⟩
    | decodeError =>
        exact ⟨("failed to fetch next page media items: "
          ++ "failed to decode media items response"),
          by simp [fetchPages, getMediaItemsFromPageURL]⟩
  | cons p goods ih =>
    intro bad rest sid tok acc hg hbad
    have hp : p.nextPageToken ≠ "" := hg p (by simp)
    obtain ⟨e, he⟩ := ih bad rest sid p.nextPageToken
      (acc ++ p.mediaItems) (fun q hq => hg q (by simp [hq])) hbad
    refine ⟨e, ?_⟩
    simp only [List.map_cons, List.cons_append]
    simp [fetchPages, getMediaItemsFromPageURL, hp, he]

theorem fetchSelectedMediaItems_error (goods : List MediaItemsList) (bad : PickerOutcome)
    (rest : List PickerOutcome) (sid : String)
    (hg : ∀ q ∈ goods, q.nextPageToken ≠ "") (hbad : ∀ page, bad ≠ PickerOutcome.ok page) :
    ∃ e, (fetchSelectedMediaItems sid
      (goods.map PickerOutcome.ok ++ bad :: rest)).2 = .error e := by
  cases goods with
  | nil =>
    cases bad with
    | ok page => exact absurd rfl (hbad page)
    | reqError =>
        exact ⟨("failed to fetch first page media items: " ++ "failed to get media items"),
          by simp [fetchSelectedMediaItems, getMediaItemsFromFirstPage]⟩
    | badStatus c =>
        exact ⟨("failed to fetch first page media items: "
          ++ ("failed to fetch media items: status " ++ toString c)),
          by simp [fetchSelectedMediaItems, getMediaItemsFromFirstPage]⟩
    | decodeError =>
        exact ⟨("failed to fetch first page media items: "
          ++ "failed to decode media items response"),
          by simp [fetchSelectedMediaItems, getMediaItemsFromFirstPage]⟩
  | cons p goods =>
    have hp : p.nextPageToken ≠ "" := hg p (by simp)
    obtain ⟨e, he⟩ := fetchPages_error goods bad rest sid p.nextPageToken p.mediaItems
      (fun q hq => hg q (by simp [hq])) hbad
    refine ⟨e, ?_⟩
    simp only [List.map_cons, List.cons_append]
    simp [fetchSelectedMediaItems, getMediaItemsFromFirstPage, hp, he]

/-- C7: when the pages before some request succeed with nonempty tokens and
that request fails (transport error, non-OK status or decode failure), both
pagination loops return an error and no media items: no partial item list is
returned. -/
theorem pagination_error_no_items
    (fp : JMap) (goods : List MediaItemsResponse) (bad : PageOutcome)
    (rest : List PageOutcome) (sid : String) (goodsA : List MediaItemsList)
    (badA : PickerOutcome) (restA : List PickerOutcome)
    (hg : ∀ q ∈ goods, q.nextPageToken ≠ "") (hbad : ∀ resp, bad ≠ PageOutcome.ok resp)
    (hgA : ∀ q ∈ goodsA, q.nextPageToken ≠ "")
    (hbadA : ∀ page, badA ≠ PickerOutcome.ok page) :
    ((∃ e, (SearchMediaItems fp
        (goods.map PageOutcome.ok ++ bad :: rest)).result = .error e)
      ∧ ∀ items, (SearchMediaItems fp
        (goods.map PageOutcome.ok ++ bad :: rest)).result ≠ .ok items)
    ∧ ((∃ e, (fetchSelectedMediaItems sid
        (goodsA.map PickerOutcome.ok ++ badA :: restA)).2 = .error e)
      ∧ ∀ items, (fetchSelectedMediaItems sid
        (goodsA.map PickerOutcome.ok ++ badA :: restA)).2 ≠ .ok items) := by
  obtain ⟨e1, he1⟩ := searchLoop_error goods bad rest fp "" [] hg hbad
  obtain ⟨e2, he2⟩ := fetchSelectedMediaItems_error goodsA badA restA sid hgA hbadA
  have he1s : (SearchMediaItems fp
      (goods.map PageOutcome.ok ++ bad :: rest)).result = .error e1 := he1
  refine ⟨⟨⟨e1, he1s⟩, ?_⟩, ⟨e2, he2⟩, ?_⟩
  · intro items h
    rw [he1s] at h
    exact Except.noConfusion h
  · intro items h
    rw [he2] at h
    exact Except.noConfusion h

/-- Witness for C7: a non-OK status on the second page of each variant. -/
theorem pagination_error_no_items_witness :
    ((∃ e, (SearchMediaItems []
        ([pageOne].map PageOutcome.ok ++ PageOutcome.badStatus 500 :: [])).result = .error e)
      ∧ ∀ items, (SearchMediaItems []
        ([pageOne].map PageOutcome.ok ++ PageOutcome.badStatus 500 :: [])).result ≠ .ok items)
    ∧ ((∃ e, (fetchSelectedMediaItems "sid"
        ([plistOne].map PickerOutcome.ok ++ PickerOutcome.badStatus 500 :: [])).2 = .error e)
      ∧ ∀ items, (fetchSelectedMediaItems "sid"
        ([plistOne].map PickerOutcome.ok ++ PickerOutcome.badStatus 500 :: [])).2 ≠ .ok items) :=
  pagination_error_no_items [] [pageOne] (PageOutcome.badStatus 500) [] "sid" [plistOne]
    (PickerOutcome.badStatus 500) [] (by decide) (fun resp h => by cases h)
    (by decide) (fun page h => by cases h)

/-! Claim C8: the search loop mutates the caller's payload map. -/

theorem searchLoop_payload_pageSize (server : List PageOutcome) :
    ∀ (payload : JMap) (tok : String) (acc : List MediaItem),
      mapGet payload ("pageSize") = some (JVal.num 100) →
      mapGet (searchLoop payload tok acc server).payload ("pageSize") =
        some (JVal.num 100) := by
  induction server with
  | nil => intro payload tok acc h; simpa [searchLoop] using h
  | cons o rest ih =>
    intro payload tok acc h
    cases o with
    | ok resp =>
      by_cases hr : resp.nextPageToken = ""
      · simp [searchLoop, hr, nextPayload_pageSize]
      · simp only [searchLoop, if_neg hr]
        exact ih _ _ _ (nextPayload_pageSize _ _)
    | reqError => simp [searchLoop, nextPayload_pageSize]
    | badStatus c => simp [searchLoop, nextPayload_pageSize]
    | decodeError => simp [searchLoop, nextPayload_pageSize]

theorem searchLoop_pageSize_set (o : PageOutcome) (rest : List PageOutcome)
    (payload : JMap) (tok : String) (acc : List MediaItem) :
    mapGet (searchLoop payload tok acc (o :: rest)).payload ("pageSize") =
      some (JVal.num 100) := by
  cases o with
  | ok resp =>
    by_cases hr : resp.nextPageToken = ""
    · simp [searchLoop, hr, nextPayload_pageSize]
    · simp only [searchLoop, if_neg hr]
      exact searchLoop_payload_pageSize rest _ _ _ (nextPayload_pageSize _ _)
  | reqError => simp [searchLoop, nextPayload_pageSize]
  | badStatus c => simp [searchLoop, nextPayload_pageSize]
  | decodeError => simp [searchLoop, nextPayload_pageSize]

theorem searchLoop_payload_pageToken_persists (server : List PageOutcome) :
    ∀ (payload : JMap) (tok : String) (acc : List MediaItem) (s : String),
      mapGet payload ("pageToken") = some (JVal.str s) →
      ∃ u, mapGet (searchLoop payload tok acc server).payload ("pageToken") =
        some (JVal.str u) := by
  induction server with
  | nil => intro payload tok acc s h; exact ⟨s, by simpa [searchLoop] using h⟩
  | cons o rest ih =>
    intro payload tok acc s h
    have hnext : ∃ u, mapGet (nextPayload payload tok) ("pageToken") =
        some (JVal.str u) := by
      by_cases ht : tok = ""
      · subst ht
        exact ⟨s, by rw [nextPayload_pageToken_of_empty]; exact h⟩
      · exact ⟨tok, nextPayload_pageToken_of_ne _ _ ht⟩
    obtain ⟨u, hu⟩ := hnext
    cases o with
    | ok resp =>
      by_cases hr : resp.nextPageToken = ""
      · exact ⟨u, by simpa [searchLoop, hr] using hu⟩
      · simp only [searchLoop, if_neg hr]
        exact ih _ _ _ u hu
    | reqError => exact ⟨u, by simpa [searchLoop] using hu⟩
    | badStatus c => exact ⟨u, by simpa [searchLoop] using hu⟩
    | decodeError => exact ⟨u, by simpa [searchLoop] using hu⟩

theorem searchLoop_pageToken_set (o : PageOutcome)
    (rest : List PageOutcome) (payload : JMap) (tok : String) (acc : List MediaItem)
    (htok : tok ≠ "") :
    ∃ u, mapGet (searchLoop payload tok acc (o :: rest)).payload ("pageToken") =
      some (JVal.str u) := by
  have hu : mapGet (nextPayload payload tok) ("pageToken") = some (JVal.str tok) :=
    nextPayload_pageToken_of_ne _ _ htok
  cases o with
  | ok resp =>
    by_cases hr : resp.nextPageToken = ""
    · exact ⟨tok, by simpa [searchLoop, hr] using hu⟩
    · simp only [searchLoop, if_neg hr]
      exact searchLoop_payload_pageToken_persists rest _ _ _ tok hu
  | reqError => exact ⟨tok, by simpa [searchLoop] using hu⟩
  | badStatus c => exact ⟨tok, by simpa [searchLoop] using hu⟩
  | decodeError => exact ⟨tok, by simpa [searchLoop] using hu⟩

/-- C8: SearchMediaItems mutates the filter payload map the caller passed:
after any run with at least one request the caller's map holds pageSize 100,
so a map that lacked pageSize before the call is left changed; and once a
first page comes back with a nonempty token, the second iteration writes
pageToken into the same map, where it remains from then on. -/
theorem SearchMediaItems_mutates_payload
    (fp : JMap) (o : PageOutcome) (rest : List PageOutcome)
    (hnew : mapGet fp ("pageSize") = none) :
    mapGet (SearchMediaItems fp (o :: rest)).payload ("pageSize") = some (JVal.num 100)
    ∧ (SearchMediaItems fp (o :: rest)).payload ≠ fp
    ∧ (∀ resp, o = PageOutcome.ok resp → resp.nextPageToken ≠ "" →
        ∀ o2 rest2, rest = o2 :: rest2 →
        ∃ u, mapGet (SearchMediaItems fp (o :: rest)).payload ("pageToken") =
          some (JVal.str u)) := by
  have h1 : mapGet (SearchMediaItems fp (o :: rest)).payload ("pageSize") =
      some (JVal.num 100) := searchLoop_pageSize_set o rest fp "" []
  refine ⟨h1, ?_, ?_⟩
  · intro hEq
    rw [hEq, hnew] at h1
    exact Option.noConfusion h1
  · intro resp ho hr o2 rest2 hrest
    subst ho
    subst hrest
    simp only [SearchMediaItems, searchLoop, if_neg hr]
    exact searchLoop_pageToken_set o2 rest2 (nextPayload fp "") resp.nextPageToken
      ([] ++ resp.mediaItems) hr

/-- Witness for C8 on a concrete payload and a concrete two page trace. -/
theorem SearchMediaItems_mutates_payload_witness :
    mapGet (SearchMediaItems [("filters", JVal.node "favorites")]
        (PageOutcome.ok pageOne :: [PageOutcome.ok pageTwo])).payload ("pageSize") =
      some (JVal.num 100)
    ∧ (SearchMediaItems [("filters", JVal.node "favorites")]
        (PageOutcome.ok pageOne :: [PageOutcome.ok pageTwo])).payload ≠
      [("filters", JVal.node "favorites")]
    ∧ (∀ resp, PageOutcome.ok pageOne = PageOutcome.ok resp → resp.nextPageToken ≠ "" →
        ∀ o2 rest2, [PageOutcome.ok pageTwo] = o2 :: rest2 →
        ∃ u, mapGet (SearchMediaItems [("filters", JVal.node "favorites")]
          (PageOutcome.ok pageOne :: [PageOutcome.ok pageTwo])).payload ("pageToken") =
          some (JVal.str u)) :=
  SearchMediaItems_mutates_payload [("filters", JVal.node "favorites")]
    (PageOutcome.ok pageOne) [PageOutcome.ok pageTwo] rfl

/-! Claim C10: every page request asks for at most 100 items. -/

theorem searchLoop_requests_pageSize (server : List PageOutcome) :
    ∀ (payload : JMap) (tok : String) (acc : List MediaItem) (r : JMap),
      r ∈ (searchLoop payload tok acc server).requests →
      mapGet r ("pageSize") = some (JVal.num 100) := by
  induction server with
  | nil => intro payload tok acc r hr; simp [searchLoop] at hr
  | cons o rest ih =>
    intro payload tok acc r hr
    cases o with
    | ok resp =>
      by_cases hrt : resp.nextPageToken = ""
      · simp [searchLoop, hrt] at hr
        subst hr
        exact nextPayload_pageSize _ _
      · simp [searchLoop, hrt] at hr
        rcases hr with hr | hr
        · subst hr
          exact nextPayload_pageSize _ _
        · exact ih _ _ _ _ hr
    | reqError =>
        simp [searchLoop] at hr
        subst hr
        exact nextPayload_pageSize _ _
    | badStatus c =>
        simp [searchLoop] at hr
        subst hr
        exact nextPayload_pageSize _ _
    | decodeError =>
        simp [searchLoop] at hr
        subst hr
        exact nextPayload_pageSize _ _

theorem fetchPages_requests_pageSize (server : List PickerOutcome) :
    ∀ (sid tok : String) (acc : List PickedMediaItem) (r : PickerRequest),
      r ∈ (fetchPages sid tok acc server).1 → r.pageSize = 100 := by
  induction server with
  | nil => intro sid tok acc r hr; simp [fetchPages] at hr
  | cons o rest ih =>
    intro sid tok acc r hr
    cases o with
    | ok page =>
      by_cases hp : page.nextPageToken = ""
      · simp [fetchPages, getMediaItemsFromPageURL, hp] at hr
        subst hr
        rfl
      · simp [fetchPages, getMediaItemsFromPageURL, hp] at hr
        rcases hr with hr | hr
        · subst hr
          rfl
        · exact ih _ _ _ _ hr
    | reqError =>
        simp [fetchPages, getMediaItemsFromPageURL] at hr
        subst hr
        rfl
    | badStatus c =>
        simp [fetchPages, getMediaItemsFromPageURL] at hr
        subst hr
        rfl
    | decodeError =>
        simp [fetchPages, getMediaItemsFromPageURL] at hr
        subst hr
        rfl

theorem fetchSelectedMediaItems_requests_pageSize (sid : String)
    (server : List PickerOutcome) :
    ∀ r ∈ (fetchSelectedMediaItems sid server).1, r.pageSize = 100 := by
  cases server with
  | nil => intro r hr; simp [fetchSelectedMediaItems] at hr
  | cons o rest =>
    intro r hr
    cases o with
    | ok page =>
      by_cases hp : page.nextPageToken = ""
      · simp [fetchSelectedMediaItems, getMediaItemsFromFirstPage, hp] at hr
        subst hr
        rfl
      · simp [fetchSelectedMediaItems, getMediaItemsFromFirstPage, hp] at hr
        rcases hr with hr | hr
        · subst hr
          rfl
        · exact fetchPages_requests_pageSize rest _ _ _ _ hr
    | reqError =>
        simp [fetchSelectedMediaItems, getMediaItemsFromFirstPage] at hr
        subst hr
        rfl
    | badStatus c =>
        simp [fetchSelectedMediaItems, getMediaItemsFromFirstPage] at hr
        subst hr
        rfl
    | decodeError =>
        simp [fetchSelectedMediaItems, getMediaItemsFromFirstPage] at hr
        subst hr
        rfl

/-- C10: every request either loop sends asks for a page size of 100: every
payload SearchMediaItems sends holds pageSize 100, both picker page fetchers
put pageSize 100 in their query, and hence every request in a
fetchSelectedMediaItems trace carries pageSize 100. -/
theorem all_requests_pageSize_100
    (fp : JMap) (server : List PageOutcome) (sid tok : String) (o : PickerOutcome)
    (serverA : List PickerOutcome) :
    (∀ r ∈ (SearchMediaItems fp server).requests,
      mapGet r ("pageSize") = some (JVal.num 100))
    ∧ (getMediaItemsFromFirstPage sid o).1.pageSize = 100
    ∧ (getMediaItemsFromPageURL sid tok o).1.pageSize = 100
    ∧ (∀ r ∈ (fetchSelectedMediaItems sid serverA).1, r.pageSize = 100) :=
  ⟨fun r hr => searchLoop_requests_pageSize server fp "" [] r hr, rfl, rfl,
    fetchSelectedMediaItems_requests_pageSize sid serverA⟩

/-- Witness for C10 on concrete two page traces. -/
theorem all_requests_pageSize_100_witness :
    mapGet ((SearchMediaItems [] (PageOutcome.ok pageOne :: [PageOutcome.ok pageTwo])).requests.headI)
        ("pageSize") = some (JVal.num 100)
    ∧ (getMediaItemsFromFirstPage "sid" (PickerOutcome.ok plistOne)).1.pageSize = 100 := by
  have h := all_requests_pageSize_100 []
    (PageOutcome.ok pageOne :: [PageOutcome.ok pageTwo]) "sid" "ptok"
    (PickerOutcome.ok plistOne) [PickerOutcome.ok plistTwo]
  exact ⟨h.1 _ (by decide), h.2.1⟩

/-! Claim C3: the session polling loop. -/

theorem waitLoop_complete (sid : String) (polls : Nat → SessionFetch)
    (server : List PickerOutcome) :
    ∀ (budget start k : Nat), k < budget →
      (∀ j, j < k → pollForCompleteSession (polls (start + j)) = .ok false) →
      pollForCompleteSession (polls (start + k)) = .ok true →
      ∀ items, (fetchSelectedMediaItems sid server).2 = .ok items →
      waitLoop sid polls server budget start = .ok items := by
  intro budget
  induction budget with
  | zero => intro start k hk; exact absurd hk (Nat.not_lt_zero k)
  | succ b ih =>
    intro start k hk hprev hcur items hf
    cases k with
    | zero =>
      rw [Nat.add_zero] at hcur
      simp only [waitLoop, hcur, hf]
    | succ k2 =>
      have h0 : pollForCompleteSession (polls start) = .ok false := by
        have := hprev 0 (Nat.succ_pos k2)
        rwa [Nat.add_zero] at this
      have hshift : ∀ j, j < k2 →
          pollForCompleteSession (polls (start + 1 + j)) = .ok false := by
        intro j hj
        have := hprev (j + 1) (by omega)
        rwa [show start + (j + 1) = start + 1 + j by omega] at this
      have hcur2 : pollForCompleteSession (polls (start + 1 + k2)) = .ok true := by
        rwa [show start + (k2 + 1) = start + 1 + k2 by omega] at hcur
      simp only [waitLoop, h0]
      exact ih (start + 1) k2 (by omega) hshift hcur2 items hf

theorem waitLoop_timeout (sid : String) (polls : Nat → SessionFetch)
    (server : List PickerOutcome) :
    ∀ (budget start : Nat),
      (∀ k, k < budget → pollForCompleteSession (polls (start + k)) = .ok false) →
      waitLoop sid polls server budget start = .error ("session timed out") := by
  intro budget
  induction budget with
  | zero => intro start _; rfl
  | succ b ih =>
    intro start h
    have h0 : pollForCompleteSession (polls start) = .ok false := by
      have := h 0 (Nat.succ_pos b)
      rwa [Nat.add_zero] at this
    have hshift : ∀ k, k < b →
        pollForCompleteSession (polls (start + 1 + k)) = .ok false := by
      intro k hk
      have := h (k + 1) (by omega)
      rwa [show start + (k + 1) = start + 1 + k by omega] at this
    simp only [waitLoop, h0]
    exact ih (start + 1) hshift

/-- C3: with a parsed poll interval and timeout, the polling loop allows
exactly the ticks strictly before the timeout.  If the k-th poll (within that
budget) is the first to report the session complete and the item pagination
succeeds, waitForSessionComplete returns exactly those items; if every poll in
the budget reports the session incomplete, it returns the timeout error with
no items.  Either return ends the loop. -/
theorem waitForSessionComplete_first_complete_or_timeout
    (session : PickingSession) (polls : Nat → SessionFetch) (server : List PickerOutcome)
    (interval timeout : Nat)
    (hi : parseDuration session.pollingConfig.pollInterval = some interval)
    (ht : parseDuration session.pollingConfig.timeoutIn = some timeout) :
    (∀ k, k < ticksBefore interval timeout →
      (∀ j, j < k → pollForCompleteSession (polls j) = .ok false) →
      pollForCompleteSession (polls k) = .ok true →
      ∀ items, (fetchSelectedMediaItems session.id server).2 = .ok items →
        waitForSessionComplete session polls server = .ok items)
    ∧ ((∀ k, k < ticksBefore interval timeout →
          pollForCompleteSession (polls k) = .ok false) →
        waitForSessionComplete session polls server = .error ("session timed out")) := by
  constructor
  · intro k hk hprev hcur items hf
    have h1 : waitLoop session.id polls server (ticksBefore interval timeout) 0 =
        .ok items := by
      refine waitLoop_complete session.id polls server (ticksBefore interval timeout)
        0 k hk ?_ ?_ items hf
      · intro j hj
        rw [Nat.zero_add]
        exact hprev j hj
      · rw [Nat.zero_add]
        exact hcur
    simp only [waitForSessionComplete, hi, ht]
    exact h1
  · intro hall
    have h1 : waitLoop session.id polls server (ticksBefore interval timeout) 0 =
        .error ("session timed out") := by
      refine waitLoop_timeout session.id polls server (ticksBefore interval timeout) 0 ?_
      intro k hk
      rw [Nat.zero_add]
      exact hall k hk
    simp only [waitForSessionComplete, hi, ht]
    exact h1

/-- Witness for C3: with interval 2s and timeout 5s the budget is two polls;
the second poll reports completion and the selected item page is returned. -/
theorem waitForSessionComplete_first_complete_or_timeout_witness :
    waitForSessionComplete sessionW pollsW [PickerOutcome.ok plistTwo] =
      .ok plistTwo.mediaItems := by
  have h := waitForSessionComplete_first_complete_or_timeout sessionW pollsW
    [PickerOutcome.ok plistTwo] 2000 5000 (by decide) (by decide)
  refine h.1 1 (by decide) ?_ rfl plistTwo.mediaItems rfl
  intro j hj
  have hj0 : j = 0 := by omega
  subst hj0
  rfl

end PhotoFrameSync
